import Mathlib

/-!
Verification model of `Course1FinalProject/controller2d.py` (class `Controller2D`).

The Python class holds mutable attributes; we model the whole object state as the
structure `Controller` below and each method as a state-passing function.  Machine
floats are modelled as real numbers; `float("inf")` (the initial best distance of
`update_desired_speed`) is modelled as `none : Option ℝ`, which every real
distance compares below, exactly as every finite float compares below `inf`.

The persistent variable store `self.vars` (class `cutils.CUtils`, a file of this
repository that is not under `src/`) is modelled from the spec: per the in-source
docstring (lines 102-116) and spec section 3, `create_var` creates a persistent
variable with the given default only if it does not exist yet, and the four
variables used (`v_previous`, `e_previous`, `e_total`, `steer_output_p`) all have
default 0.0; we therefore carry them as fields initialized to 0 at construction,
on which `create_var` is the identity.

`update_controls` can raise in Python: on an empty waypoint list,
`update_desired_speed` (called at line 89) raises `IndexError` at line 54; and
whenever `self._start_control_loop` is false, line 285 reads the local `s1`,
which is assigned only at line 260 inside the active branch, raising
`UnboundLocalError` — after line 284 has already stored the current speed into
`self.vars.v_previous`.  We model the method as `Except (PyError × Controller)
Controller`, the error carrying the object state at the moment the exception is
raised (attribute mutations made before the raise are kept, as in Python).
-/

/-- Object state of `Controller2D`: the `self._*` attributes set in `__init__`
(lines 12-28) plus the four persistent `self.vars` entries (lines 117-120). -/
structure Controller where
  current_x : ℝ
  current_y : ℝ
  current_yaw : ℝ
  current_speed : ℝ
  desired_speed : ℝ
  current_frame : ℕ
  current_timestamp : ℝ
  start_control_loop : Bool
  set_throttle_v : ℝ
  set_brake_v : ℝ
  set_steer_v : ℝ
  waypoints : List (ℝ × ℝ × ℝ)
  v_previous : ℝ
  e_previous : ℝ
  e_total : ℝ
  steer_output_p : ℝ

/-- `__init__(self, waypoints)` (lines 12-28): every numeric attribute starts at
zero, `_start_control_loop` at `False`. -/
def initController (waypoints : List (ℝ × ℝ × ℝ)) : Controller :=
  { current_x := 0
    current_y := 0
    current_yaw := 0
    current_speed := 0
    desired_speed := 0
    current_frame := 0
    current_timestamp := 0
    start_control_loop := false
    set_throttle_v := 0
    set_brake_v := 0
    set_steer_v := 0
    waypoints := waypoints
    v_previous := 0
    e_previous := 0
    e_total := 0
    steer_output_p := 0 }

/-- `self._conv_rad_to_steer = 180.0 / 70.0 / np.pi` (line 26). -/
noncomputable def conv_rad_to_steer : ℝ := 180.0 / 70.0 / Real.pi

/-- `update_values` (lines 30-38): store the fresh vehicle state; `if
self._current_frame:` latches `_start_control_loop` to `True` on any non-zero
frame index and never writes `False`. -/
def update_values (c : Controller) (x y yaw speed timestamp : ℝ) (frame : ℕ) :
    Controller :=
  { c with
    current_x := x
    current_y := y
    current_yaw := yaw
    current_speed := speed
    current_timestamp := timestamp
    current_frame := frame
    start_control_loop := if frame ≠ 0 then true else c.start_control_loop }

/-- `update_waypoints` (lines 57-58). -/
def update_waypoints (c : Controller) (new_waypoints : List (ℝ × ℝ × ℝ)) :
    Controller :=
  { c with waypoints := new_waypoints }

/-- `get_commands` (lines 60-61): returns `(throttle, steer, brake)`. -/
def get_commands (c : Controller) : ℝ × ℝ × ℝ :=
  (c.set_throttle_v, c.set_steer_v, c.set_brake_v)

/-- `set_throttle` (lines 63-66): `np.fmax(np.fmin(input, 1.0), 0.0)`. -/
noncomputable def set_throttle (c : Controller) (input_throttle : ℝ) : Controller :=
  { c with set_throttle_v := max (min input_throttle 1) 0 }

/-- `set_steer` (lines 68-74): multiply by `_conv_rad_to_steer`, then
`np.fmax(np.fmin(·, 1.0), -1.0)`. -/
noncomputable def set_steer (c : Controller) (input_steer_in_rad : ℝ) : Controller :=
  { c with set_steer_v := max (min (conv_rad_to_steer * input_steer_in_rad) 1) (-1) }

/-- `set_brake` (lines 76-79): `np.fmax(np.fmin(input, 1.0), 0.0)`. -/
noncomputable def set_brake (c : Controller) (input_brake : ℝ) : Controller :=
  { c with set_brake_v := max (min input_brake 1) 0 }

/-- One iteration of the nearest-waypoint loop body (lines 48-50 and 206-208):
`if dist < min_dist: min_dist = dist; min_idx = i`.  The current best is
`none` while it is still `float("inf")` (every real distance beats it). -/
noncomputable def scanStep (d : ℕ → ℝ) (q : Option ℝ × ℕ) (n : ℕ) : Option ℝ × ℕ :=
  match q with
  | (none, _) => (some (d n), n)
  | (some m, j) => if d n < m then (some (d n), n) else (some m, j)

/-- The nearest-waypoint scan after `n` iterations (`for i in range(n)`),
starting from best/index pair `p`. -/
noncomputable def scanMin (d : ℕ → ℝ) (p : Option ℝ × ℕ) : ℕ → Option ℝ × ℕ
  | 0 => p
  | n + 1 => scanStep d (scanMin d p n) n

/-- Euclidean distance from waypoint `i` to `(x, y)`: both loops compute
`sqrt((wp[i][0]-x)**2 + (wp[i][1]-y)**2)` (lines 45-47 via `np.linalg.norm`,
lines 204-205 via `np.sqrt`). -/
noncomputable def wpDist (wps : List (ℝ × ℝ × ℝ)) (x y : ℝ) (i : ℕ) : ℝ :=
  Real.sqrt (((wps.getD i (0, 0, 0)).1 - x) ^ 2 + ((wps.getD i (0, 0, 0)).2.1 - y) ^ 2)

/-- `min_idx` computed by `update_desired_speed` (lines 41-50): initial best
`float("inf")`, initial index 0. -/
noncomputable def desiredNearest (wps : List (ℝ × ℝ × ℝ)) (x y : ℝ) : ℕ :=
  (scanMin (wpDist wps x y) (none, 0) wps.length).2

/-- `idx` computed by the lateral controller (lines 197-208): initial best
`10000000`, initial index `len(waypoints) - 1`. -/
noncomputable def lateralNearest (wps : List (ℝ × ℝ × ℝ)) (x y : ℝ) : ℕ :=
  (scanMin (wpDist wps x y) (some 10000000, wps.length - 1) wps.length).2

/-- `update_desired_speed` (lines 40-55), value stored in `_desired_speed`:
`wp[min_idx][2]` when `min_idx < len(wp) - 1` (integer comparison), else
`wp[-1][2]`.  Raises `IndexError` on an empty list (handled in
`update_controls`); on a non-empty list the indices used are in range. -/
noncomputable def desiredSpeedOf (c : Controller) : ℝ :=
  let m := desiredNearest c.waypoints c.current_x c.current_y
  if (m : ℤ) < (c.waypoints.length : ℤ) - 1 then
    (c.waypoints.getD m (0, 0, 0)).2.2
  else
    (c.waypoints.getD (c.waypoints.length - 1) (0, 0, 0)).2.2

/-- `idy` (lines 210-213): `idx + 17` if `idx < len(waypoints) - 18` (integer
arithmetic), else `len(waypoints) - 1`. -/
noncomputable def lookAhead (wps : List (ℝ × ℝ × ℝ)) (x y : ℝ) : ℕ :=
  if (lateralNearest wps x y : ℤ) < (wps.length : ℤ) - 18 then
    lateralNearest wps x y + 17
  else
    wps.length - 1

/-- `np.arctan2 y x`, modelled as the argument of the complex number `x + y i`,
whose range is the same `(-π, π]` (signed float zeros have no real analogue). -/
noncomputable def atan2 (y x : ℝ) : ℝ := Complex.arg ⟨x, y⟩

/-- The `if/elif/else` normalization applied to `theta_fai` (lines 223-228):
a single `2π` correction when the value is outside `[-π, π]`. -/
noncomputable def normElif (t : ℝ) : ℝ :=
  if t > Real.pi then t - 2 * Real.pi
  else if t < -Real.pi then t + 2 * Real.pi
  else t

/-- The two sequential `if` normalizations (lines 235-238 and 247-250):
subtract `2π` if above `π`, then add `2π` if (still) below `-π`. -/
noncomputable def normTwoIf (t : ℝ) : ℝ :=
  let t1 := if t > Real.pi then t - 2 * Real.pi else t
  if t1 < -Real.pi then t1 + 2 * Real.pi else t1

/-- `error_v = self._desired_speed - self._current_speed` (line 174), with
`_desired_speed` freshly recomputed at line 89. -/
noncomputable def speedError (c : Controller) : ℝ :=
  desiredSpeedOf c - c.current_speed

/-- `self.vars.e_total += error_v` (line 175): unbounded accumulation. -/
noncomputable def eTotalNext (c : Controller) : ℝ :=
  c.e_total + speedError c

/-- `target_acc = K_p*error_v + K_i*e_total + K_d*(error_v - e_previous)`
(lines 170-176) with `K_p = 0.2`, `K_i = 0.01`, `K_d = 0.05` and `e_total`
already updated. -/
noncomputable def targetAcc (c : Controller) : ℝ :=
  0.2 * speedError c + 0.01 * eTotalNext c + 0.05 * (speedError c - c.e_previous)

/-- The lateral controller pipeline (lines 197-252) producing the final
`steer_expect` in radians: path heading via `arctan2`, signed lateral offset,
heading error normalized once, cross-track error re-signed by `theta_fai`,
`arctan(5 * crosstrack_error / v)` (the division is NOT guarded against
`v = 0` in the source), sum normalized once, then clamped to `[-1.22, 1.22]`.
The dead intermediates `yaw_cross_track`/`yaw_path2ct` (lines 231-238) are kept
for fidelity but unused, as in the source. -/
noncomputable def steerExpect (c : Controller) : ℝ :=
  let x := c.current_x
  let y := c.current_y
  let yaw := c.current_yaw
  let v := c.current_speed
  let wps := c.waypoints
  let idx := lateralNearest wps x y
  let idy := lookAhead wps x y
  let wI := wps.getD idx (0, 0, 0)
  let wY := wps.getD idy (0, 0, 0)
  let alpha := atan2 (wY.2.1 - wI.2.1) (wY.1 - wI.1)
  let laterr := (x - wI.1) * Real.sin alpha + (y - wI.2.1) * Real.cos alpha
  let yaw_path := atan2 (wY.2.1 - wI.2.1) (wY.1 - wI.1)
  let theta_fai := normElif (yaw_path - yaw)
  let w0 := wps.getD 0 (0, 0, 0)
  let _yaw_cross_track := atan2 (y - w0.2.1) (x - w0.1)
  let _yaw_path2ct := normTwoIf (yaw_path - _yaw_cross_track)
  let crosstrack_error := if 0 < theta_fai then |laterr| else -|laterr|
  let yaw_diff_crosstrack := Real.arctan (5 * crosstrack_error / v)
  let se := normTwoIf (yaw_diff_crosstrack + theta_fai)
  max (-1.22) (min 1.22 se)

/-- The ACTIVE branch of `update_controls` (lines 89 and 123-285 with
`_start_control_loop` true): recompute the desired speed, run the PID speed
law and the lateral law, push the three outputs through the clamping setters,
and store the persistent values (`e_total` line 175, `e_previous` line 183,
`v_previous` line 284, `steer_output_p = s1` line 285). -/
noncomputable def activeCycle (c : Controller) : Controller :=
  let throttle_output := if targetAcc c < 0 then 0 else targetAcc c
  let brake_output := if targetAcc c < 0 then |targetAcc c| else 0
  let steer_output := steerExpect c
  let c1 := { c with
    desired_speed := desiredSpeedOf c
    e_total := eTotalNext c
    e_previous := speedError c }
  let c2 := set_brake (set_steer (set_throttle c1 throttle_output) steer_output) brake_output
  { c2 with v_previous := c.current_speed, steer_output_p := steer_output }

/-- Python exceptions `update_controls` can raise. -/
inductive PyError where
  | indexError
  | unboundLocal

/-- `update_controls` (lines 81-285).  On an empty waypoint list the call dies
with `IndexError` inside `update_desired_speed` (line 54) before any attribute
is written.  Otherwise, if `_start_control_loop` is false, the method stores
the new desired speed (line 89) and `vars.v_previous` (line 284) and then
raises `UnboundLocalError` at line 285, because the local `s1` is assigned
only at line 260 inside the active branch.  Otherwise the full control law
runs and the call returns normally. -/
noncomputable def update_controls (c : Controller) :
    Except (PyError × Controller) Controller :=
  if c.waypoints.isEmpty then
    Except.error (PyError.indexError, c)
  else if c.start_control_loop then
    Except.ok (activeCycle c)
  else
    Except.error (PyError.unboundLocal,
      { c with desired_speed := desiredSpeedOf c, v_previous := c.current_speed })

/-- The operations a caller can perform on a `Controller2D` object. -/
inductive CtrlOp where
  | updateValues (x y yaw speed timestamp : ℝ) (frame : ℕ)
  | updateWaypoints (wps : List (ℝ × ℝ × ℝ))
  | updateControls
  | setThrottle (t : ℝ)
  | setSteer (s : ℝ)
  | setBrake (b : ℝ)

/-- Apply one operation to the object state.  For `update_controls`, a raised
exception leaves the object in the state it had at the moment of the raise
(Python keeps attribute mutations made before an exception). -/
noncomputable def applyOp (c : Controller) : CtrlOp → Controller
  | CtrlOp.updateValues x y yaw speed timestamp frame =>
      update_values c x y yaw speed timestamp frame
  | CtrlOp.updateWaypoints wps => update_waypoints c wps
  | CtrlOp.updateControls =>
      match update_controls c with
      | Except.ok c2 => c2
      | Except.error (_, c2) => c2
  | CtrlOp.setThrottle t => set_throttle c t
  | CtrlOp.setSteer s => set_steer c s
  | CtrlOp.setBrake b => set_brake c b

/-- Run a sequence of operations left to right. -/
noncomputable def runOps (c : Controller) : List CtrlOp → Controller
  | [] => c
  | op :: ops => runOps (applyOp c op) ops

/-- The longitudinal law as worded by spec section 4.2 (for the refinement
claim C4): `error = desired_speed - current_speed`, `integral += error` with
no clamp, `derivative = error - previous_error`, `target_acceleration =
Kp·error + Ki·integral + Kd·derivative` with `Kp = 0.2`, `Ki = 0.01`,
`Kd = 0.05`; if negative then brake `|ta|` and throttle 0 else throttle `ta`
and brake 0, both saturated to `[0, 1]`; returns
`(throttle, brake, new integral, new previous_error)`. -/
noncomputable def spec_speed_law (v_desired v integral prev_error : ℝ) :
    ℝ × ℝ × ℝ × ℝ :=
  let error := v_desired - v
  let integral2 := integral + error
  let deriv := error - prev_error
  let target_acceleration := 0.2 * error + 0.01 * integral2 + 0.05 * deriv
  let throttle := if target_acceleration < 0 then 0 else target_acceleration
  let brake := if target_acceleration < 0 then |target_acceleration| else 0
  (max (min throttle 1) 0, max (min brake 1) 0, integral2, error)

/-- The documented actuator bounds of the reported command. -/
def outputsInBounds (c : Controller) : Prop :=
  0 ≤ c.set_throttle_v ∧ c.set_throttle_v ≤ 1 ∧
  0 ≤ c.set_brake_v ∧ c.set_brake_v ≤ 1 ∧
  -1 ≤ c.set_steer_v ∧ c.set_steer_v ≤ 1

/-- A latched (ACTIVE) controller over a two-point path at the origin with zero
speed and zero target speeds; used as a concrete cycle input. -/
def activeSample : Controller :=
  { initController [((0 : ℝ), 0, 0), ((1 : ℝ), 0, 0)] with start_control_loop := true }

/-- A latched controller with zero current speed, offset 2 m from a straight
two-point path with target speed 5; the lateral law divides by the zero speed. -/
def zeroSpeedSample : Controller :=
  { initController [((0 : ℝ), 0, 5), ((10 : ℝ), 0, 5)] with
      current_y := 2, start_control_loop := true }

/-- Two coincident waypoints at distance exactly `10000000` from the origin:
neither loop iteration beats the lateral scan's initial best. -/
def tieWps : List (ℝ × ℝ × ℝ) := [((10000000 : ℝ), 0, 0), ((10000000 : ℝ), 0, 0)]

/-- A one-waypoint path at distance 5 from the origin. -/
def oneWp : List (ℝ × ℝ × ℝ) := [((3 : ℝ), 4, 0)]

/-! ### Helper lemmas -/

lemma scanMin_succ (d : ℕ → ℝ) (p : Option ℝ × ℕ) (n : ℕ) :
    scanMin d p (n + 1) = scanStep d (scanMin d p n) n := rfl

lemma scanStep_none (d : ℕ → ℝ) (j n : ℕ) :
    scanStep d (none, j) n = (some (d n), n) := rfl

lemma scanStep_some (d : ℕ → ℝ) (m : ℝ) (j n : ℕ) :
    scanStep d (some m, j) n = if d n < m then (some (d n), n) else (some m, j) := rfl

lemma clamp01_bounds (t : ℝ) : 0 ≤ max (min t 1) 0 ∧ max (min t 1) 0 ≤ 1 :=
  ⟨le_max_right _ _, max_le (min_le_right _ _) (by norm_num)⟩

lemma clampPM_bounds (t : ℝ) : -1 ≤ max (min t 1) (-1) ∧ max (min t 1) (-1) ≤ 1 :=
  ⟨le_max_right _ _, max_le (min_le_right _ _) (by norm_num)⟩

lemma activeCycle_throttle (c : Controller) :
    (activeCycle c).set_throttle_v =
      max (min (if targetAcc c < 0 then 0 else targetAcc c) 1) 0 := rfl

lemma activeCycle_brake (c : Controller) :
    (activeCycle c).set_brake_v =
      max (min (if targetAcc c < 0 then |targetAcc c| else 0) 1) 0 := rfl

lemma activeCycle_steer (c : Controller) :
    (activeCycle c).set_steer_v =
      max (min (conv_rad_to_steer * steerExpect c) 1) (-1) := rfl

lemma activeCycle_e_total (c : Controller) :
    (activeCycle c).e_total = eTotalNext c := rfl

lemma activeCycle_e_previous (c : Controller) :
    (activeCycle c).e_previous = speedError c := rfl

lemma activeCycle_start (c : Controller) :
    (activeCycle c).start_control_loop = c.start_control_loop := rfl

lemma isEmpty_false_of_ne_nil {wps : List (ℝ × ℝ × ℝ)} (h : wps ≠ []) :
    wps.isEmpty = false := by
  cases wps with
  | nil => exact absurd rfl h
  | cons a l => rfl

lemma update_controls_active (c : Controller) (h1 : c.start_control_loop = true)
    (h2 : c.waypoints ≠ []) :
    update_controls c = Except.ok (activeCycle c) := by
  unfold update_controls
  rw [isEmpty_false_of_ne_nil h2, h1]
  simp

lemma update_controls_warmup (c : Controller) (h1 : c.start_control_loop = false)
    (h2 : c.waypoints ≠ []) :
    update_controls c = Except.error (PyError.unboundLocal,
      { c with desired_speed := desiredSpeedOf c, v_previous := c.current_speed }) := by
  unfold update_controls
  rw [isEmpty_false_of_ne_nil h2, h1]
  simp

lemma update_controls_cases (c : Controller) :
    update_controls c = Except.error (PyError.indexError, c) ∨
    update_controls c = Except.ok (activeCycle c) ∨
    update_controls c = Except.error (PyError.unboundLocal,
      { c with desired_speed := desiredSpeedOf c, v_previous := c.current_speed }) := by
  unfold update_controls
  cases h1 : c.waypoints.isEmpty with
  | true => left; simp
  | false =>
    cases h2 : c.start_control_loop with
    | true => right; left; simp
    | false => right; right; simp

lemma scanMin_none_spec (d : ℕ → ℝ) (j0 : ℕ) :
    ∀ n : ℕ, 0 < n →
      ∃ j, j < n ∧ scanMin d (none, j0) n = (some (d j), j) ∧
        (∀ i, i < n → d j ≤ d i) ∧ (∀ i, i < j → d j < d i) := by
  intro n
  induction n with
  | zero => exact fun h => absurd h (lt_irrefl 0)
  | succ n ih =>
    intro _
    rcases Nat.eq_zero_or_pos n with hn | hn
    · subst hn
      refine ⟨0, Nat.zero_lt_one, rfl, ?_, ?_⟩
      · intro i hi
        have h0 : i = 0 := by omega
        subst h0; exact le_refl _
      · intro i hi; exact absurd hi (Nat.not_lt_zero i)
    · obtain ⟨j, hj, heq, hmin, hleast⟩ := ih hn
      rw [scanMin_succ, heq, scanStep_some]
      by_cases hdn : d n < d j
      · rw [if_pos hdn]
        refine ⟨n, by omega, rfl, ?_, ?_⟩
        · intro i hi
          rcases (by omega : i < n ∨ i = n) with h | h
          · exact le_of_lt (lt_of_lt_of_le hdn (hmin i h))
          · subst h; exact le_refl _
        · intro i hi
          exact lt_of_lt_of_le hdn (hmin i hi)
      · rw [if_neg hdn]
        refine ⟨j, by omega, rfl, ?_, hleast⟩
        intro i hi
        rcases (by omega : i < n ∨ i = n) with h | h
        · exact hmin i h
        · subst h; exact not_lt.mp hdn

lemma scanMin_some_cases (d : ℕ → ℝ) (m0 : ℝ) (j0 : ℕ) :
    ∀ n : ℕ,
      (scanMin d (some m0, j0) n = (some m0, j0) ∧ ∀ i, i < n → m0 ≤ d i) ∨
      (∃ j, j < n ∧ scanMin d (some m0, j0) n = (some (d j), j) ∧ d j < m0 ∧
        (∀ i, i < n → d j ≤ d i) ∧ (∀ i, i < j → d j < d i)) := by
  intro n
  induction n with
  | zero => exact Or.inl ⟨rfl, fun i hi => absurd hi (Nat.not_lt_zero i)⟩
  | succ n ih =>
    rcases ih with ⟨heq, hall⟩ | ⟨j, hj, heq, hlt, hmin, hleast⟩
    · rw [scanMin_succ, heq, scanStep_some]
      by_cases hdn : d n < m0
      · rw [if_pos hdn]
        refine Or.inr ⟨n, by omega, rfl, hdn, ?_, ?_⟩
        · intro i hi
          rcases (by omega : i < n ∨ i = n) with h | h
          · exact le_of_lt (lt_of_lt_of_le hdn (hall i h))
          · subst h; exact le_refl _
        · intro i hi
          exact lt_of_lt_of_le hdn (hall i hi)
      · rw [if_neg hdn]
        refine Or.inl ⟨rfl, ?_⟩
        intro i hi
        rcases (by omega : i < n ∨ i = n) with h | h
        · exact hall i h
        · subst h; exact not_lt.mp hdn
    · rw [scanMin_succ, heq, scanStep_some]
      by_cases hdn : d n < d j
      · rw [if_pos hdn]
        refine Or.inr ⟨n, by omega, rfl, lt_trans hdn hlt, ?_, ?_⟩
        · intro i hi
          rcases (by omega : i < n ∨ i = n) with h | h
          · exact le_of_lt (lt_of_lt_of_le hdn (hmin i h))
          · subst h; exact le_refl _
        · intro i hi
          exact lt_of_lt_of_le hdn (hmin i hi)
      · rw [if_neg hdn]
        refine Or.inr ⟨j, by omega, rfl, hlt, ?_, hleast⟩
        intro i hi
        rcases (by omega : i < n ∨ i = n) with h | h
        · exact hmin i h
        · subst h; exact not_lt.mp hdn

lemma activeCycle_bounds (c : Controller) : outputsInBounds (activeCycle c) := by
  unfold outputsInBounds
  rw [activeCycle_throttle, activeCycle_brake, activeCycle_steer]
  exact ⟨(clamp01_bounds _).1, (clamp01_bounds _).2, (clamp01_bounds _).1,
    (clamp01_bounds _).2, (clampPM_bounds _).1, (clampPM_bounds _).2⟩

lemma applyOp_outputs (c : Controller) (op : CtrlOp) (h : outputsInBounds c) :
    outputsInBounds (applyOp c op) := by
  cases op with
  | updateValues x y yaw speed timestamp frame => exact h
  | updateWaypoints wps => exact h
  | updateControls =>
    show outputsInBounds
      (match update_controls c with
       | Except.ok c2 => c2
       | Except.error (_, c2) => c2)
    rcases update_controls_cases c with hc | hc | hc <;> rw [hc]
    · exact h
    · exact activeCycle_bounds c
    · exact h
  | setThrottle t =>
    exact ⟨(clamp01_bounds _).1, (clamp01_bounds _).2, h.2.2.1, h.2.2.2.1,
      h.2.2.2.2.1, h.2.2.2.2.2⟩
  | setSteer s =>
    exact ⟨h.1, h.2.1, h.2.2.1, h.2.2.2.1, (clampPM_bounds _).1, (clampPM_bounds _).2⟩
  | setBrake b =>
    exact ⟨h.1, h.2.1, (clamp01_bounds _).1, (clamp01_bounds _).2,
      h.2.2.2.2.1, h.2.2.2.2.2⟩

lemma runOps_outputs (ops : List CtrlOp) :
    ∀ c : Controller, outputsInBounds c → outputsInBounds (runOps c ops) := by
  induction ops with
  | nil => exact fun c h => h
  | cons op ops ih => exact fun c h => ih (applyOp c op) (applyOp_outputs c op h)

lemma initController_outputs (wps : List (ℝ × ℝ × ℝ)) :
    outputsInBounds (initController wps) := by
  refine ⟨?_, ?_, ?_, ?_, ?_, ?_⟩ <;> norm_num [initController]

lemma applyOp_latch (c : Controller) (op : CtrlOp)
    (h : c.start_control_loop = true) : (applyOp c op).start_control_loop = true := by
  cases op with
  | updateValues x y yaw speed timestamp frame =>
    show (if frame ≠ 0 then true else c.start_control_loop) = true
    split_ifs with hf
    · rfl
    · exact h
  | updateWaypoints wps => exact h
  | updateControls =>
    show (match update_controls c with
          | Except.ok c2 => c2
          | Except.error (_, c2) => c2).start_control_loop = true
    rcases update_controls_cases c with hc | hc | hc <;> rw [hc]
    · exact h
    · rw [activeCycle_start]; exact h
    · exact h
  | setThrottle t => exact h
  | setSteer s => exact h
  | setBrake b => exact h

lemma runOps_latch (ops : List CtrlOp) :
    ∀ c : Controller, c.start_control_loop = true →
      (runOps c ops).start_control_loop = true := by
  induction ops with
  | nil => exact fun c h => h
  | cons op ops ih => exact fun c h => ih (applyOp c op) (applyOp_latch c op h)

lemma activeSample_wps :
    activeSample.waypoints = [((0 : ℝ), 0, 0), ((1 : ℝ), 0, 0)] := rfl

lemma activeSample_d0 : wpDist [((0 : ℝ), 0, 0), ((1 : ℝ), 0, 0)] 0 0 0 = 0 := by
  have h : (([((0 : ℝ), 0, 0), ((1 : ℝ), 0, 0)] : List (ℝ × ℝ × ℝ)).getD 0 (0, 0, 0)) =
      ((0 : ℝ), (0 : ℝ), (0 : ℝ)) := rfl
  unfold wpDist
  rw [h]
  norm_num

lemma activeSample_d1 : wpDist [((0 : ℝ), 0, 0), ((1 : ℝ), 0, 0)] 0 0 1 = 1 := by
  have h : (([((0 : ℝ), 0, 0), ((1 : ℝ), 0, 0)] : List (ℝ × ℝ × ℝ)).getD 1 (0, 0, 0)) =
      ((1 : ℝ), (0 : ℝ), (0 : ℝ)) := rfl
  unfold wpDist
  rw [h]
  norm_num

lemma activeSample_nearest :
    desiredNearest activeSample.waypoints activeSample.current_x activeSample.current_y = 0 := by
  rw [activeSample_wps, show activeSample.current_x = 0 from rfl,
    show activeSample.current_y = 0 from rfl]
  unfold desiredNearest
  rw [show ([((0 : ℝ), 0, 0), ((1 : ℝ), 0, 0)] : List (ℝ × ℝ × ℝ)).length = 2 from rfl]
  have e : scanMin (wpDist [((0 : ℝ), 0, 0), ((1 : ℝ), 0, 0)] 0 0) (none, 0) 2 =
      scanStep (wpDist [((0 : ℝ), 0, 0), ((1 : ℝ), 0, 0)] 0 0)
        (scanStep (wpDist [((0 : ℝ), 0, 0), ((1 : ℝ), 0, 0)] 0 0) (none, 0) 0) 1 := rfl
  rw [e, scanStep_none, scanStep_some, activeSample_d0, activeSample_d1]
  norm_num

lemma activeSample_desired : desiredSpeedOf activeSample = 0 := by
  simp only [desiredSpeedOf]
  rw [activeSample_nearest, activeSample_wps]
  norm_num

lemma activeSample_targetAcc : targetAcc activeSample = 0 := by
  unfold targetAcc eTotalNext speedError
  rw [activeSample_desired]
  norm_num [activeSample, initController]

lemma tie_d0 : wpDist tieWps 0 0 0 = 10000000 := by
  have h : (tieWps.getD 0 (0, 0, 0)) = ((10000000 : ℝ), (0 : ℝ), (0 : ℝ)) := rfl
  unfold wpDist
  rw [h]
  have e : (((10000000 : ℝ), (0 : ℝ), (0 : ℝ)).1 - 0) ^ 2 +
      (((10000000 : ℝ), (0 : ℝ), (0 : ℝ)).2.1 - 0) ^ 2 = (10000000 : ℝ) ^ 2 := by norm_num
  rw [e, Real.sqrt_sq (by norm_num : (0 : ℝ) ≤ 10000000)]

lemma tie_d1 : wpDist tieWps 0 0 1 = 10000000 := by
  have h : (tieWps.getD 1 (0, 0, 0)) = ((10000000 : ℝ), (0 : ℝ), (0 : ℝ)) := rfl
  unfold wpDist
  rw [h]
  have e : (((10000000 : ℝ), (0 : ℝ), (0 : ℝ)).1 - 0) ^ 2 +
      (((10000000 : ℝ), (0 : ℝ), (0 : ℝ)).2.1 - 0) ^ 2 = (10000000 : ℝ) ^ 2 := by norm_num
  rw [e, Real.sqrt_sq (by norm_num : (0 : ℝ) ≤ 10000000)]

lemma tie_scan : lateralNearest tieWps 0 0 = 1 := by
  unfold lateralNearest
  rw [show tieWps.length = 2 from rfl]
  have e : scanMin (wpDist tieWps 0 0) (some 10000000, 2 - 1) 2 =
      scanStep (wpDist tieWps 0 0) (scanStep (wpDist tieWps 0 0) (some 10000000, 1) 0) 1 := rfl
  rw [e, scanStep_some, tie_d0, if_neg (lt_irrefl (10000000 : ℝ)),
    scanStep_some, tie_d1, if_neg (lt_irrefl (10000000 : ℝ))]

lemma oneWp_d0 : wpDist oneWp 0 0 0 = 5 := by
  have h : (oneWp.getD 0 (0, 0, 0)) = ((3 : ℝ), (4 : ℝ), (0 : ℝ)) := rfl
  unfold wpDist
  rw [h]
  have e : (((3 : ℝ), (4 : ℝ), (0 : ℝ)).1 - 0) ^ 2 +
      (((3 : ℝ), (4 : ℝ), (0 : ℝ)).2.1 - 0) ^ 2 = (5 : ℝ) ^ 2 := by norm_num
  rw [e, Real.sqrt_sq (by norm_num : (0 : ℝ) ≤ 5)]

/-! ### Claim theorems -/

/-- C1 (code_bug evidence): on a fresh controller in WARMUP over the non-empty
path `[(0,0,0)]`, `update_controls` does not complete and yield a command at
all — it raises `UnboundLocalError` at line 285, leaving the object state
unchanged (the recomputed desired speed and stored previous speed are both the
zeros they already were).  The spec's claim that the WARMUP cycle completes
with the all-zero command is the intent (the code's own comment at line 122
says the first frame is merely "skipped"), but the store of `s1` at line 285
sits outside the active branch and kills every WARMUP cycle. -/
theorem warmup_cycle_raises_unbound_local :
    update_controls (initController [((0 : ℝ), 0, 0)]) =
      Except.error (PyError.unboundLocal, initController [((0 : ℝ), 0, 0)]) := by
  rfl

/-- C2: whenever `update_controls` runs with `_start_control_loop` false (and a
non-empty path, as the data model requires), the call fails with
`UnboundLocalError` (the final store at line 285 reads the local `s1`, assigned
only in the active branch); none of `_set_throttle`/`_set_steer`/`_set_brake`
is written, while `vars.v_previous` has already been set to the current speed
(line 284) before the failure. -/
theorem warmup_crash_state (c : Controller) (h1 : c.start_control_loop = false)
    (h2 : c.waypoints ≠ []) :
    ∃ s, update_controls c = Except.error (PyError.unboundLocal, s) ∧
      s.set_throttle_v = c.set_throttle_v ∧
      s.set_steer_v = c.set_steer_v ∧
      s.set_brake_v = c.set_brake_v ∧
      s.v_previous = c.current_speed :=
  ⟨{ c with desired_speed := desiredSpeedOf c, v_previous := c.current_speed },
    update_controls_warmup c h1 h2, rfl, rfl, rfl, rfl⟩

theorem warmup_crash_state_witness :
    (initController [((1 : ℝ), 2, 3)]).start_control_loop = false ∧
    (initController [((1 : ℝ), 2, 3)]).waypoints ≠ [] ∧
    ∃ s, update_controls (initController [((1 : ℝ), 2, 3)]) =
        Except.error (PyError.unboundLocal, s) ∧
      s.set_throttle_v = (initController [((1 : ℝ), 2, 3)]).set_throttle_v ∧
      s.set_steer_v = (initController [((1 : ℝ), 2, 3)]).set_steer_v ∧
      s.set_brake_v = (initController [((1 : ℝ), 2, 3)]).set_brake_v ∧
      s.v_previous = (initController [((1 : ℝ), 2, 3)]).current_speed := by
  refine ⟨rfl, by simp [initController], ?_⟩
  exact warmup_crash_state (initController [((1 : ℝ), 2, 3)]) rfl (by simp [initController])

/-- C3: every reported command stays within its documented bounds: each setter
clamps (throttle and brake to `[0, 1]`, steer — after the `180/(70π)`
conversion — to `[-1, 1]`), and along every sequence of operations on a fresh
controller the stored command never leaves those bounds. -/
theorem commands_within_bounds :
    (∀ (c : Controller) (t : ℝ),
      0 ≤ (set_throttle c t).set_throttle_v ∧ (set_throttle c t).set_throttle_v ≤ 1) ∧
    (∀ (c : Controller) (b : ℝ),
      0 ≤ (set_brake c b).set_brake_v ∧ (set_brake c b).set_brake_v ≤ 1) ∧
    (∀ (c : Controller) (s : ℝ),
      -1 ≤ (set_steer c s).set_steer_v ∧ (set_steer c s).set_steer_v ≤ 1) ∧
    (∀ (wps : List (ℝ × ℝ × ℝ)) (ops : List CtrlOp),
      0 ≤ (get_commands (runOps (initController wps) ops)).1 ∧
      (get_commands (runOps (initController wps) ops)).1 ≤ 1 ∧
      -1 ≤ (get_commands (runOps (initController wps) ops)).2.1 ∧
      (get_commands (runOps (initController wps) ops)).2.1 ≤ 1 ∧
      0 ≤ (get_commands (runOps (initController wps) ops)).2.2 ∧
      (get_commands (runOps (initController wps) ops)).2.2 ≤ 1) := by
  refine ⟨fun c t => clamp01_bounds t, fun c b => clamp01_bounds b,
    fun c s => clampPM_bounds _, fun wps ops => ?_⟩
  have h := runOps_outputs ops (initController wps) (initController_outputs wps)
  exact ⟨h.1, h.2.1, h.2.2.2.2.1, h.2.2.2.2.2, h.2.2.1, h.2.2.2.1⟩

/-- C4: in every ACTIVE cycle the longitudinal controller computes exactly the
spec's PID law (fixed gains 0.2/0.01/0.05, unbounded integral accumulated
before use, derivative against the previous error, negative demand mapped to
brake and non-negative to throttle, both saturated to `[0, 1]`), and the
persisted integral and previous error are updated as stated. -/
theorem longitudinal_matches_spec_law (c : Controller)
    (h1 : c.start_control_loop = true) (h2 : c.waypoints ≠ []) :
    update_controls c = Except.ok (activeCycle c) ∧
    (activeCycle c).set_throttle_v =
      (spec_speed_law (desiredSpeedOf c) c.current_speed c.e_total c.e_previous).1 ∧
    (activeCycle c).set_brake_v =
      (spec_speed_law (desiredSpeedOf c) c.current_speed c.e_total c.e_previous).2.1 ∧
    (activeCycle c).e_total =
      (spec_speed_law (desiredSpeedOf c) c.current_speed c.e_total c.e_previous).2.2.1 ∧
    (activeCycle c).e_previous =
      (spec_speed_law (desiredSpeedOf c) c.current_speed c.e_total c.e_previous).2.2.2 :=
  ⟨update_controls_active c h1 h2, rfl, rfl, rfl, rfl⟩

theorem longitudinal_matches_spec_law_witness :
    activeSample.start_control_loop = true ∧
    activeSample.waypoints ≠ [] ∧
    update_controls activeSample = Except.ok (activeCycle activeSample) := by
  refine ⟨rfl, by simp [activeSample, initController], ?_⟩
  exact (longitudinal_matches_spec_law activeSample rfl (by simp [activeSample, initController])).1

/-- C5 (counterexample): with both waypoints at distance exactly 10000000 from
the origin, index 0 minimizes the Euclidean distance (all distances are equal),
yet the lateral controller's search returns index 1 = `len - 1`: its initial
best of `10000000` with initial index `len - 1` is never beaten by the strict
`<` comparison, so the claimed "smallest index among the minimizers" (index 0)
is not returned. -/
theorem nearest_search_tie_cex :
    (∀ i, i < tieWps.length → wpDist tieWps 0 0 0 ≤ wpDist tieWps 0 0 i) ∧
    lateralNearest tieWps 0 0 = 1 := by
  constructor
  · intro i hi
    rw [show tieWps.length = 2 from rfl] at hi
    interval_cases i
    · exact le_refl _
    · rw [tie_d0, tie_d1]
  · exact tie_scan

/-- C5 (amended): the desired-speed search always returns the smallest index
minimizing the Euclidean distance (its initial best is `inf`); the lateral
search does so whenever some waypoint lies strictly closer than its initial
best `10000000`, and when every waypoint is at distance at least `10000000` it
returns `len - 1` regardless of the minimizers. -/
theorem nearest_search_least_minimizer (wps : List (ℝ × ℝ × ℝ)) (x y : ℝ) :
    (wps ≠ [] →
      (∀ i, i < wps.length →
        wpDist wps x y (desiredNearest wps x y) ≤ wpDist wps x y i) ∧
      (∀ i, i < wps.length → wpDist wps x y i = wpDist wps x y (desiredNearest wps x y) →
        desiredNearest wps x y ≤ i)) ∧
    ((∃ i, i < wps.length ∧ wpDist wps x y i < 10000000) →
      (∀ i, i < wps.length →
        wpDist wps x y (lateralNearest wps x y) ≤ wpDist wps x y i) ∧
      (∀ i, i < wps.length → wpDist wps x y i = wpDist wps x y (lateralNearest wps x y) →
        lateralNearest wps x y ≤ i)) ∧
    ((∀ i, i < wps.length → 10000000 ≤ wpDist wps x y i) →
      lateralNearest wps x y = wps.length - 1) := by
  refine ⟨?_, ?_, ?_⟩
  · intro hne
    obtain ⟨j, hj, heq, hmin, hleast⟩ :=
      scanMin_none_spec (wpDist wps x y) 0 wps.length (List.length_pos.mpr hne)
    have hdn : desiredNearest wps x y = j := by unfold desiredNearest; rw [heq]
    constructor
    · intro i hi
      rw [hdn]
      exact hmin i hi
    · intro i hi hdist
      rw [hdn] at hdist ⊢
      by_contra hcon
      push_neg at hcon
      exact absurd hdist (ne_of_gt (hleast i hcon))
  · rintro ⟨i0, hi0, hd0⟩
    rcases scanMin_some_cases (wpDist wps x y) 10000000 (wps.length - 1) wps.length with
      ⟨heq, hall⟩ | ⟨j, hj, heq, hlt, hmin, hleast⟩
    · exact absurd hd0 (not_lt.mpr (hall i0 hi0))
    · have hdn : lateralNearest wps x y = j := by unfold lateralNearest; rw [heq]
      constructor
      · intro i hi
        rw [hdn]
        exact hmin i hi
      · intro i hi hdist
        rw [hdn] at hdist ⊢
        by_contra hcon
        push_neg at hcon
        exact absurd hdist (ne_of_gt (hleast i hcon))
  · intro hall
    rcases scanMin_some_cases (wpDist wps x y) 10000000 (wps.length - 1) wps.length with
      ⟨heq, _⟩ | ⟨j, hj, _, hlt, _, _⟩
    · unfold lateralNearest
      rw [heq]
    · exact absurd hlt (not_lt.mpr (hall j hj))

theorem nearest_search_least_minimizer_witness :
    oneWp ≠ [] ∧
    (∃ i, i < oneWp.length ∧ wpDist oneWp 0 0 i < 10000000) ∧
    (∀ i, i < oneWp.length →
      wpDist oneWp 0 0 (desiredNearest oneWp 0 0) ≤ wpDist oneWp 0 0 i) ∧
    (∀ i, i < oneWp.length →
      wpDist oneWp 0 0 (lateralNearest oneWp 0 0) ≤ wpDist oneWp 0 0 i) := by
  have hne : oneWp ≠ [] := by simp [oneWp]
  have hex : ∃ i, i < oneWp.length ∧ wpDist oneWp 0 0 i < 10000000 := by
    refine ⟨0, by simp [oneWp], ?_⟩
    rw [oneWp_d0]
    norm_num
  exact ⟨hne, hex, ((nearest_search_least_minimizer oneWp 0 0).1 hne).1,
    (((nearest_search_least_minimizer oneWp 0 0).2.1 hex)).1⟩

/-- C6 (code_bug evidence): the lateral law's division by the current speed
(line 243) is not guarded: in every ACTIVE cycle with zero current speed the
cycle still completes normally — there is no failure path (the only exceptions
the method can raise are `IndexError` and `UnboundLocalError`) and no fallback
branch, and the steering command is produced by the ordinary pipeline in which
`arctan(5·crosstrack_error / v)` is evaluated with `v = 0`. -/
theorem zero_speed_unguarded (c : Controller) (h1 : c.start_control_loop = true)
    (h2 : c.waypoints ≠ []) (h3 : c.current_speed = 0) :
    update_controls c = Except.ok (activeCycle c) ∧
    (activeCycle c).set_steer_v =
      max (min (conv_rad_to_steer * steerExpect c) 1) (-1) :=
  ⟨update_controls_active c h1 h2, rfl⟩

theorem zero_speed_unguarded_witness :
    zeroSpeedSample.start_control_loop = true ∧
    zeroSpeedSample.waypoints ≠ [] ∧
    zeroSpeedSample.current_speed = 0 ∧
    update_controls zeroSpeedSample = Except.ok (activeCycle zeroSpeedSample) := by
  refine ⟨rfl, by simp [zeroSpeedSample, initController], rfl, ?_⟩
  exact (zero_speed_unguarded zeroSpeedSample rfl
    (by simp [zeroSpeedSample, initController]) rfl).1

/-- C7: the WARMUP→ACTIVE transition is a one-way latch: `update_values` sets
`_start_control_loop` to true on any non-zero frame index; no operation of the
controller ever resets it (in particular later zero frame indices keep it
true); and every cycle run on a latched controller (with a non-empty path)
executes the full control law. -/
theorem latch_one_way :
    (∀ (c : Controller) (x y yaw speed timestamp : ℝ) (frame : ℕ), frame ≠ 0 →
      (update_values c x y yaw speed timestamp frame).start_control_loop = true) ∧
    (∀ (c : Controller) (op : CtrlOp), c.start_control_loop = true →
      (applyOp c op).start_control_loop = true) ∧
    (∀ (c : Controller) (ops : List CtrlOp), c.start_control_loop = true →
      (runOps c ops).start_control_loop = true) ∧
    (∀ c : Controller, c.start_control_loop = true → c.waypoints ≠ [] →
      update_controls c = Except.ok (activeCycle c)) := by
  refine ⟨?_, applyOp_latch, fun c ops => runOps_latch ops c, update_controls_active⟩
  intro c x y yaw speed timestamp frame hf
  show (if frame ≠ 0 then true else c.start_control_loop) = true
  rw [if_pos hf]

theorem latch_one_way_witness :
    (update_values (initController [((0 : ℝ), 0, 0)]) 0 0 0 0 0 1).start_control_loop = true ∧
    (runOps activeSample [CtrlOp.updateValues 1 1 0 0 1 0]).start_control_loop = true ∧
    update_controls activeSample = Except.ok (activeCycle activeSample) := by
  refine ⟨latch_one_way.1 (initController [((0 : ℝ), 0, 0)]) 0 0 0 0 0 1 (by decide), ?_, ?_⟩
  · exact latch_one_way.2.2.1 activeSample [CtrlOp.updateValues 1 1 0 0 1 0] rfl
  · exact latch_one_way.2.2.2 activeSample rfl (by simp [activeSample, initController])

/-- C8 (counterexample): a single `2π` correction does not bring every angle
into `(-π, π]`: at input `10` (realizable as `theta = yaw_path - yaw` with
`yaw_path = 0`, `yaw = -10`), the normalized value `10 - 2π` is still greater
than `π`. -/
theorem norm_once_out_of_range_cex :
    normElif 10 ∉ Set.Ioc (-Real.pi) Real.pi := by
  have h1 : Real.pi < 3.15 := Real.pi_lt_d2
  have h2 : (10 : ℝ) > Real.pi := by linarith
  unfold normElif
  rw [if_pos h2, Set.mem_Ioc]
  rintro ⟨-, hc⟩
  linarith

/-- C8 (amended): for any input angle in `[-3π, 3π]` — which covers
`theta = yaw_path - yaw` whenever `|yaw| ≤ 2π`, since `yaw_path ∈ (-π, π]` —
both single-correction normalizations land in the closed interval `[-π, π]`
(the endpoint `-π` is attained, e.g. at input `-π`, so the half-open
`(-π, π]` of the claim does not hold); outside `[-3π, 3π]` one correction
is not enough, as the counterexample shows. -/
theorem norm_once_bounded (t : ℝ) (h1 : -(3 * Real.pi) ≤ t) (h2 : t ≤ 3 * Real.pi) :
    (-Real.pi ≤ normElif t ∧ normElif t ≤ Real.pi) ∧
    (-Real.pi ≤ normTwoIf t ∧ normTwoIf t ≤ Real.pi) := by
  have hpi := Real.pi_pos
  constructor
  · simp only [normElif]
    split_ifs <;> constructor <;> linarith
  · simp only [normTwoIf]
    split_ifs <;> constructor <;> linarith

theorem norm_once_bounded_witness :
    (-(3 * Real.pi) ≤ (0 : ℝ) ∧ (0 : ℝ) ≤ 3 * Real.pi) ∧
    (-Real.pi ≤ normElif 0 ∧ normElif 0 ≤ Real.pi) ∧
    (-Real.pi ≤ normTwoIf 0 ∧ normTwoIf 0 ≤ Real.pi) := by
  have hpi := Real.pi_pos
  have h1 : -(3 * Real.pi) ≤ (0 : ℝ) := by linarith
  have h2 : (0 : ℝ) ≤ 3 * Real.pi := by linarith
  exact ⟨⟨h1, h2⟩, (norm_once_bounded 0 h1 h2).1, (norm_once_bounded 0 h1 h2).2⟩

/-- C9: for every non-empty path, the look-ahead index computed by the lateral
controller equals `idx + 17` when `idx < len(Path) - 18` (Python integer
arithmetic, here on `ℤ`), and equals `len(Path) - 1` otherwise; in both cases
it is a valid index. -/
theorem look_ahead_index_spec (wps : List (ℝ × ℝ × ℝ)) (x y : ℝ) (h : wps ≠ []) :
    ((lateralNearest wps x y : ℤ) < (wps.length : ℤ) - 18 →
      lookAhead wps x y = lateralNearest wps x y + 17) ∧
    ((wps.length : ℤ) - 18 ≤ (lateralNearest wps x y : ℤ) →
      lookAhead wps x y = wps.length - 1) ∧
    lookAhead wps x y < wps.length := by
  have hn : 0 < wps.length := List.length_pos.mpr h
  unfold lookAhead
  by_cases hc : (lateralNearest wps x y : ℤ) < (wps.length : ℤ) - 18
  · rw [if_pos hc]
    exact ⟨fun _ => rfl, fun h2 => absurd hc (not_lt.mpr h2), by omega⟩
  · rw [if_neg hc]
    exact ⟨fun h2 => absurd h2 hc, fun _ => rfl, by omega⟩

theorem look_ahead_index_spec_witness :
    oneWp ≠ [] ∧ lookAhead oneWp 0 0 < oneWp.length := by
  have hne : oneWp ≠ [] := by simp [oneWp]
  exact ⟨hne, (look_ahead_index_spec oneWp 0 0 hne).2.2⟩

/-- C10 (counterexample): an ACTIVE cycle in which the PID target acceleration
is exactly zero (zero speed error, zero integral, zero previous error) sets
both throttle and brake to zero, so "exactly one of throttle and brake is
non-zero" fails: the `else` branch assigns `throttle = target_acc = 0` and
leaves `brake = 0`. -/
theorem throttle_brake_both_zero_cex :
    activeSample.start_control_loop = true ∧
    update_controls activeSample = Except.ok (activeCycle activeSample) ∧
    (activeCycle activeSample).set_throttle_v = 0 ∧
    (activeCycle activeSample).set_brake_v = 0 := by
  refine ⟨rfl, update_controls_active activeSample rfl (by simp [activeSample, initController]),
    ?_, ?_⟩
  · rw [activeCycle_throttle, activeSample_targetAcc]
    norm_num [min_def, max_def]
  · rw [activeCycle_brake, activeSample_targetAcc]
    norm_num [min_def, max_def]

/-- C10 (amended): in every ACTIVE cycle at most one of throttle and brake is
non-zero — they are never simultaneously non-zero (when the target
acceleration is negative the throttle is the clamp of 0, otherwise the brake
is); both are zero exactly when the target acceleration is zero. -/
theorem throttle_brake_not_both_nonzero (c : Controller) :
    (activeCycle c).set_throttle_v = 0 ∨ (activeCycle c).set_brake_v = 0 := by
  by_cases h : targetAcc c < 0
  · left
    rw [activeCycle_throttle, if_pos h]
    norm_num [min_def, max_def]
  · right
    rw [activeCycle_brake, if_neg h]
    norm_num [min_def, max_def]
